import Mathlib

/-!
# Involuntary dissolutions job — a shallow embedding

A verification development for the involuntary-dissolutions batch job of the
`lear` corporate-registry repository.  The repository ships the job's unit
tests (`jobs/involuntary-dissolutions/tests/unit/test_involuntary_dissolutions.py`)
while the job module `involuntary_dissolutions.py` itself (the functions
`initiate_dissolution_process`, `check_run_schedule`, `stage_2_process`) and the
`legal_api.models` data model are not part of the sources; the definitions
below are therefore modelled from the specification's description of the batch
lifecycle state machine (data model §3, component design §4), kept consistent
with the behaviours the unit tests pin down.

Modelling conventions: timestamps are day counts (`Nat`); the relational store
is a `State` record of lists; fallible operations return `Option`; machine
strings stay `String`, but string comparison and numeric parsing are done over
`String.data` (`List Char`) so that every definition evaluates.
-/

namespace InvDiss

/-- Modelled from the spec: `Batch.BatchType` of the missing `legal_api.models`;
this job only ever uses the involuntary-dissolution type. -/
inductive BatchType where
  | INVOLUNTARY_DISSOLUTION
  deriving DecidableEq

/-- Modelled from the spec: `Batch.BatchStatus` of the missing `legal_api.models`
(§3: status ∈ PROCESSING, HOLD, COMPLETED, ...). -/
inductive BatchStatus where
  | PROCESSING
  | HOLD
  | COMPLETED
  deriving DecidableEq

/-- Modelled from the spec: `BatchProcessing.BatchProcessingStep` of the missing
`legal_api.models` (§3: ordered sequence WARNING_LEVEL_1, WARNING_LEVEL_2,
WARNING_LEVEL_3, DISSOLUTION). -/
inductive BatchProcessingStep where
  | WARNING_LEVEL_1
  | WARNING_LEVEL_2
  | WARNING_LEVEL_3
  | DISSOLUTION
  deriving DecidableEq

/-- Modelled from the spec: `BatchProcessing.BatchProcessingStatus` of the missing
`legal_api.models` (§3: status ∈ PROCESSING, WITHDRAWN, HOLD, COMPLETED, ...). -/
inductive BatchProcessingStatus where
  | PROCESSING
  | WITHDRAWN
  | HOLD
  | COMPLETED
  deriving DecidableEq

/-- Modelled from the spec: the `Business` model of the missing `legal_api.models`
(§3): identifier (unique key), last-annual-report date (day count, `none` when
never filed).  `dissolution_eligible` stands for the stage-specific store
criteria of §4.2/§6 ("in good standing overdue for filings"), which the spec
treats as an external collaborator's query predicate. -/
structure Business where
  id : Nat
  identifier : String
  last_ar_date : Option Nat
  dissolution_eligible : Bool
  deriving DecidableEq

/-- Modelled from the spec: the `Batch` model of the missing `legal_api.models`
(§3): identifier, batch_type, status, size, start_date. -/
structure Batch where
  id : Nat
  batch_type : BatchType
  status : BatchStatus
  size : Nat
  start_date : Nat
  deriving DecidableEq

/-- Modelled from the spec: the `BatchProcessing` model of the missing
`legal_api.models` (§3): batch reference, business reference/identifier, step,
status, created_date, last_modified, meta_data. -/
structure BatchProcessing where
  batch_id : Nat
  business_id : Nat
  business_identifier : String
  step : BatchProcessingStep
  status : BatchProcessingStatus
  created_date : Nat
  last_modified : Nat
  meta_data : String
  deriving DecidableEq

/-- Modelled from the spec: the relational store the job reads and mutates
(§6), as one record: the business table, the batch tables, the name→value
configuration table, the next fresh batch id, and the current day. -/
structure State where
  today : Nat
  businesses : List Business
  batches : List Batch
  batch_processings : List BatchProcessing
  configurations : List (String × String)
  next_batch_id : Nat
  deriving DecidableEq

/-- Modelled from the spec: `Configuration.find_by_name(name) -> value` of the
missing configuration store (§6). -/
def find_by_name (cfg : List (String × String)) (name : String) : Option String :=
  (cfg.find? (fun p => decide (p.1 = name))).map Prod.snd

/-- Accumulate the digits of `cs` onto `acc`; `none` on a non-digit. -/
def chars_to_nat_core : List Char → Nat → Option Nat
  | [], acc => some acc
  | c :: cs, acc =>
    if c.isDigit then chars_to_nat_core cs (acc * 10 + (c.toNat - 48)) else none

/-- Parse a nonempty all-digit character list as a natural number. -/
def parse_nat_chars (cs : List Char) : Option Nat :=
  match cs with
  | [] => none
  | _ => chars_to_nat_core cs 0

/-- Modelled from the spec: parsing a configuration value as an integer
("integer as string", §6); `none` is the ConfigurationError of §7. -/
def parse_nat (v : String) : Option Nat :=
  parse_nat_chars v.data

/-- Split a character list on a separator character. -/
def split_chars (sep : Char) : List Char → List (List Char)
  | [] => [[]]
  | c :: cs =>
    let r := split_chars sep cs
    if c = sep then [] :: r
    else
      match r with
      | [] => [[c]]
      | w :: ws => (c :: w) :: ws

/-- Modelled from the spec: one entry of a cron field (§4.1): `*`, a single
number, or a range `a-b`; a malformed entry is a configuration error. -/
def cron_entry_matches (v : Nat) (entry : List Char) : Option Bool :=
  if entry = ['*'] then some true
  else
    match split_chars '-' entry with
    | [a] => (parse_nat_chars a).map (fun x => decide (x = v))
    | [a, b] =>
      match parse_nat_chars a, parse_nat_chars b with
      | some x, some y => some (decide (x ≤ v) && decide (v ≤ y))
      | _, _ => none
    | _ => none

/-- A cron field matches when some of its comma-separated entries matches;
propagates malformedness. -/
def cron_entries_match (v : Nat) : List (List Char) → Option Bool
  | [] => some false
  | e :: es =>
    match cron_entry_matches v e, cron_entries_match v es with
    | some b, some r => some (b || r)
    | _, _ => none

/-- Modelled from the spec: matching one cron field ("must support expressions
combining multiple allowed days", §4.1). -/
def cron_field_matches (field : List Char) (v : Nat) : Option Bool :=
  cron_entries_match v (split_chars ',' field)

/-- Modelled from the spec: the part of the current date the Schedule Gate
consults (§4.1: "day-of-week/day-of-month constraints"); day_of_week uses the
cron convention 0 = Sunday. -/
structure CronDate where
  day_of_month : Nat
  day_of_week : Nat
  deriving DecidableEq

/-- Modelled from the spec: evaluation of one cron-like expression against the
current date (§4.1) — a pure function of (expression, date); the minute, hour
and month fields carry no date constraint; `none` on a malformed expression
("fails fast with a configuration error; no silent default"). -/
def cron_matches_date (expr : String) (d : CronDate) : Option Bool :=
  match split_chars ' ' expr.data with
  | [_minute, _hour, dom, _month, dow] =>
    match cron_field_matches dom d.day_of_month, cron_field_matches dow d.day_of_week with
    | some a, some b => some (a && b)
    | _, _ => none
  | _ => none

/-- Modelled from the spec: the configuration name of the stage-1 cron
expression ("cron expressions per stage", §3/§6). -/
def stage_1_schedule_name : String := "DISSOLUTIONS_STAGE_1_SCHEDULE"

/-- Modelled from the spec: the configuration name of the stage-2 cron
expression. -/
def stage_2_schedule_name : String := "DISSOLUTIONS_STAGE_2_SCHEDULE"

/-- Modelled from the spec: the configuration name of the stage-3 cron
expression. -/
def stage_3_schedule_name : String := "DISSOLUTIONS_STAGE_3_SCHEDULE"

/-- Modelled from the spec: the configuration name of the batch allowance
(`NUM_DISSOLUTIONS_ALLOWED`, §6). -/
def num_dissolutions_allowed_name : String := "NUM_DISSOLUTIONS_ALLOWED"

/-- A `find_by_name` call that also records, in call order, the name it was
asked for — the observable the unit test pins with its mock side-effect list. -/
def find_by_name_traced (cfg : List (String × String)) (name : String)
    (trace : List String) : Option String × List String :=
  (find_by_name cfg name, trace ++ [name])

/-- Modelled from the spec: `check_run_schedule` of the missing
`involuntary_dissolutions.py` (§4.1): retrieves the three per-stage cron
expressions by name, in stage order, evaluates each against the current date,
and returns one boolean per stage; paired with the list of configuration names
it looked up, in call order.  `none` on a missing name or malformed
expression. -/
def check_run_schedule_core (cfg : List (String × String)) (d : CronDate) :
    Option (Bool × Bool × Bool) × List String :=
  let (r1, t1) := find_by_name_traced cfg stage_1_schedule_name []
  let (r2, t2) := find_by_name_traced cfg stage_2_schedule_name t1
  let (r3, t3) := find_by_name_traced cfg stage_3_schedule_name t2
  (match r1, r2, r3 with
   | some v1, some v2, some v3 =>
     match cron_matches_date v1 d, cron_matches_date v2 d, cron_matches_date v3 d with
     | some b1, some b2, some b3 => some (b1, b2, b3)
     | _, _, _ => none
   | _, _, _ => none,
   t3)

/-- Modelled from the spec: `check_run_schedule` proper — the triple of
per-stage flags (stage 1, stage 2, stage 3, in that order). -/
def check_run_schedule (cfg : List (String × String)) (d : CronDate) :
    Option (Bool × Bool × Bool) :=
  (check_run_schedule_core cfg d).1

/-- Look a batch up by id. -/
def find_batch (s : State) (bid : Nat) : Option Batch :=
  s.batches.find? (fun b => decide (b.id = bid))

/-- Look a business up by id. -/
def find_business (s : State) (bid : Nat) : Option Business :=
  s.businesses.find? (fun b => decide (b.id = bid))

/-- Modelled from the spec: a batch is active while non-terminal (§4.2,
"active (non-terminal) batch"). -/
def batch_is_active (s : State) (bid : Nat) : Bool :=
  match find_batch s bid with
  | some b => decide (¬ b.status = BatchStatus.COMPLETED)
  | none => false

/-- Modelled from the spec: a business already present in an active batch is
excluded from eligibility (§4.2). -/
def in_active_batch (s : State) (b : Business) : Bool :=
  s.batch_processings.any
    (fun bp => decide (bp.business_id = b.id) && batch_is_active s bp.batch_id)

/-- The stable selection order of §4.2: businesses compared by identifier
(lexicographically on the identifier's characters). -/
def business_le (a b : Business) : Prop :=
  a.identifier.data ≤ b.identifier.data

instance : DecidableRel business_le := fun a b =>
  inferInstanceAs (Decidable (a.identifier.data ≤ b.identifier.data))

instance : IsTotal Business business_le :=
  ⟨fun a b => le_total a.identifier.data b.identifier.data⟩

instance : IsTrans Business business_le :=
  ⟨fun _ _ _ hab hbc => le_trans hab hbc⟩

/-- Modelled from the spec: the Eligibility Selector (§4.2) of the missing
`involuntary_dissolutions.py`: the businesses meeting the store's eligibility
criteria and not already present in an active batch, ordered by identifier. -/
def eligible_businesses (s : State) : List Business :=
  List.insertionSort business_le
    (s.businesses.filter (fun b => b.dissolution_eligible && !(in_active_batch s b)))

/-- Modelled from the spec: the non-empty meta_data annotation each new
BatchProcessing row carries ("annotated with metadata describing the action",
§4.3). -/
def dissolution_meta_data : String := "overdue ARs - involuntary dissolution"

/-- Modelled from the spec: the daily-run guard of §4.3 — was a batch of the
involuntary-dissolution type already created today? -/
def has_batch_today (s : State) : Bool :=
  s.batches.any (fun b =>
    decide (b.batch_type = BatchType.INVOLUNTARY_DISSOLUTION) && decide (b.start_date = s.today))

/-- Modelled from the spec: the configured dissolution allowance
(`NUM_DISSOLUTIONS_ALLOWED`, integer as string); `none` is the
ConfigurationError of §7. -/
def configured_allowance (s : State) : Option Nat :=
  (find_by_name s.configurations num_dissolutions_allowed_name).bind parse_nat

/-- Modelled from the spec: the BatchProcessing row created for one selected
business (§4.3): initial step WARNING_LEVEL_1, status PROCESSING, created
today, annotated with metadata. -/
def new_batch_processing (batch_id : Nat) (today : Nat) (b : Business) : BatchProcessing :=
  { batch_id := batch_id
    business_id := b.id
    business_identifier := b.identifier
    step := BatchProcessingStep.WARNING_LEVEL_1
    status := BatchProcessingStatus.PROCESSING
    created_date := today
    last_modified := today
    meta_data := dissolution_meta_data }

/-- Modelled from the spec: `initiate_dissolution_process` of the missing
`involuntary_dissolutions.py` (§4.3).  If a batch of this type was already
created today, return without effect; on a missing/malformed allowance fail
with a configuration error (`none`); if the allowance is zero, return without
effect; otherwise create one Batch (status PROCESSING, size = min(eligible
count, allowance), start_date = today) and one BatchProcessing row per
selected business, transactionally. -/
def initiate_dissolution_process (s : State) : Option State :=
  if has_batch_today s then some s
  else
    match configured_allowance s with
    | none => none
    | some allowed =>
      if allowed = 0 then some s
      else
        let selected := (eligible_businesses s).take allowed
        let batch : Batch :=
          { id := s.next_batch_id
            batch_type := BatchType.INVOLUNTARY_DISSOLUTION
            status := BatchStatus.PROCESSING
            size := selected.length
            start_date := s.today }
        let rows := selected.map (new_batch_processing batch.id s.today)
        some { s with
                batches := s.batches ++ [batch]
                batch_processings := s.batch_processings ++ rows
                next_batch_id := s.next_batch_id + 1 }

/-- Modelled from the spec: the stage-2 minimum dwell period in days (§4.4,
"created_date older than the stage's minimum dwell period"; glossary: "minimum
elapsed time at a step before eligibility for advancement").  The spec gives no
numeric value; the unit tests pin `0 < dwell ≤ 60` (a row created 60 days
before the run is advanced, a row created at the run's time is not), and 60 is
the largest value consistent with them. -/
def stage_2_dwell_days : Nat := 60

/-- Is the owning batch of this row in status PROCESSING? -/
def owning_batch_processing_status (s : State) (bp : BatchProcessing) : Bool :=
  match find_batch s bp.batch_id with
  | some b => decide (b.status = BatchStatus.PROCESSING)
  | none => false

/-- Modelled from the spec: the stage-2 selection predicate (§4.4): owning
batch status PROCESSING, row status PROCESSING, row step WARNING_LEVEL_1, and
created_date older than the dwell period. -/
def stage_2_matched (s : State) (bp : BatchProcessing) : Bool :=
  owning_batch_processing_status s bp
    && decide (bp.status = BatchProcessingStatus.PROCESSING)
    && decide (bp.step = BatchProcessingStep.WARNING_LEVEL_1)
    && decide (bp.created_date + stage_2_dwell_days ≤ s.today)

/-- Modelled from the spec: has the row's business "become current (e.g.,
filed since the warning was issued)" (§4.4) — its last annual-report date is
strictly after the row's creation date? -/
def business_has_filed_since (s : State) (bp : BatchProcessing) : Bool :=
  match find_business s bp.business_id with
  | some b =>
    match b.last_ar_date with
    | some d => decide (bp.created_date < d)
    | none => false
  | none => false

/-- Modelled from the spec: the stage-2 transition of one matched row (§4.4):
business current → WITHDRAWN with step reset to WARNING_LEVEL_1; otherwise
next step WARNING_LEVEL_2 with status still PROCESSING; last_modified bumped
either way. -/
def stage_2_transition (s : State) (bp : BatchProcessing) : BatchProcessing :=
  if business_has_filed_since s bp then
    { bp with
        status := BatchProcessingStatus.WITHDRAWN
        step := BatchProcessingStep.WARNING_LEVEL_1
        last_modified := s.today }
  else
    { bp with
        step := BatchProcessingStep.WARNING_LEVEL_2
        last_modified := s.today }

/-- One row under `stage_2_process`: transitioned when matched, untouched
otherwise. -/
def stage_2_row (s : State) (bp : BatchProcessing) : BatchProcessing :=
  if stage_2_matched s bp then stage_2_transition s bp else bp

/-- Modelled from the spec: `stage_2_process` of the missing
`involuntary_dissolutions.py` (§4.4): every BatchProcessing row matching the
stage-2 predicate is transitioned, every other row is left untouched. -/
def stage_2_process (s : State) : State :=
  { s with batch_processings := s.batch_processings.map (stage_2_row s) }

/-- The position of a step in the fixed ordered sequence of §3. -/
def step_order : BatchProcessingStep → Nat
  | BatchProcessingStep.WARNING_LEVEL_1 => 1
  | BatchProcessingStep.WARNING_LEVEL_2 => 2
  | BatchProcessingStep.WARNING_LEVEL_3 => 3
  | BatchProcessingStep.DISSOLUTION => 4

/-- How many involuntary-dissolution batches of the state carry today's
start date. -/
def inv_batches_today (s : State) : Nat :=
  (s.batches.filter (fun b =>
    decide (b.batch_type = BatchType.INVOLUNTARY_DISSOLUTION)
      && decide (b.start_date = s.today))).length

/-- The business identifiers of the batch-processing rows `s'` holds beyond
those of `s`, in storage order. -/
def new_row_identifiers (s s' : State) : List String :=
  (s'.batch_processings.drop s.batch_processings.length).map
    (fun bp => bp.business_identifier)

/-- A concrete configuration table: allowance 3 and the three stage
schedules of the unit tests. -/
def exCfg : List (String × String) :=
  [(num_dissolutions_allowed_name, "3"),
   (stage_1_schedule_name, "0 0 * * 1-2"),
   (stage_2_schedule_name, "0 0 * * 2"),
   (stage_3_schedule_name, "0 0 * * 3")]

/-- A concrete state with two eligible businesses and no batches. -/
def exState : State :=
  { today := 100
    businesses := [⟨1, "BC0000002", none, true⟩, ⟨2, "BC0000001", none, true⟩]
    batches := []
    batch_processings := []
    configurations := exCfg
    next_batch_id := 1 }

/-- The state `initiate_dissolution_process` produces from `exState`. -/
def exInit : State :=
  (initiate_dissolution_process exState).getD exState

/-- A concrete state with one in-flight batch-processing row at
WARNING_LEVEL_1, created 60 days ago, whose business filed 10 days ago. -/
def exStage : State :=
  { today := 100
    businesses := [⟨1, "BC1234567", some 90, true⟩]
    batches := [⟨7, BatchType.INVOLUNTARY_DISSOLUTION, BatchStatus.PROCESSING, 1, 40⟩]
    batch_processings :=
      [⟨7, 1, "BC1234567", BatchProcessingStep.WARNING_LEVEL_1,
        BatchProcessingStatus.PROCESSING, 40, 40, "m"⟩]
    configurations := exCfg
    next_batch_id := 8 }

/-- The state `initiate_dissolution_process` produces from `exStage`. -/
def exStageInit : State :=
  (initiate_dissolution_process exStage).getD exStage

/-- `exStage` with the row created today, so the dwell condition fails. -/
def exFresh : State :=
  { exStage with
      batch_processings :=
        [⟨7, 1, "BC1234567", BatchProcessingStep.WARNING_LEVEL_1,
          BatchProcessingStatus.PROCESSING, 100, 100, "m"⟩] }

/-- A concrete state whose configured allowance is the string `"0"`. -/
def exZero : State :=
  { exState with configurations := [(num_dissolutions_allowed_name, "0")] }

/-! ## Helper lemmas -/

/-- The stage-2 selection predicate, spelled out. -/
theorem stage_2_matched_iff (s : State) (bp : BatchProcessing) :
    stage_2_matched s bp = true ↔
      (owning_batch_processing_status s bp = true
        ∧ bp.status = BatchProcessingStatus.PROCESSING
        ∧ bp.step = BatchProcessingStep.WARNING_LEVEL_1
        ∧ bp.created_date + stage_2_dwell_days ≤ s.today) := by
  simp [stage_2_matched, Bool.and_eq_true, and_assoc]

/-- `stage_2_process` acts positionally through `stage_2_row`. -/
theorem stage_2_process_get (s : State) (i : Nat)
    (h : i < s.batch_processings.length)
    (h2 : i < (stage_2_process s).batch_processings.length) :
    (stage_2_process s).batch_processings.get ⟨i, h2⟩
      = stage_2_row s (s.batch_processings.get ⟨i, h⟩) := by
  simp [stage_2_process, List.get_eq_getElem, List.getElem_map]

/-- The daily-run guard short-circuits `initiate_dissolution_process`. -/
theorem initiate_of_has_batch_today (s : State) (hg : has_batch_today s = true) :
    initiate_dissolution_process s = some s := by
  simp [initiate_dissolution_process, hg]

/-- A zero allowance short-circuits `initiate_dissolution_process`. -/
theorem initiate_of_zero_allowance (s : State)
    (hg : has_batch_today s = false) (ha : configured_allowance s = some 0) :
    initiate_dissolution_process s = some s := by
  simp [initiate_dissolution_process, hg, ha]

/-- The creating run of `initiate_dissolution_process`, as an explicit state. -/
theorem initiate_eq_some (s : State) (a : Nat)
    (hg : has_batch_today s = false)
    (ha : configured_allowance s = some a)
    (h0 : a ≠ 0) :
    initiate_dissolution_process s = some
      { s with
          batches := s.batches ++
            [{ id := s.next_batch_id
               batch_type := BatchType.INVOLUNTARY_DISSOLUTION
               status := BatchStatus.PROCESSING
               size := ((eligible_businesses s).take a).length
               start_date := s.today }]
          batch_processings := s.batch_processings ++
            ((eligible_businesses s).take a).map (new_batch_processing s.next_batch_id s.today)
          next_batch_id := s.next_batch_id + 1 } := by
  simp [initiate_dissolution_process, hg, ha, h0]

/-- Inversion for a successful `initiate_dissolution_process` run: either a
guard fired and the state is unchanged, or the batch and its rows were
created. -/
theorem initiate_cases (s s' : State)
    (hrun : initiate_dissolution_process s = some s') :
    (has_batch_today s = true ∧ s' = s)
    ∨ (has_batch_today s = false ∧ configured_allowance s = some 0 ∧ s' = s)
    ∨ ∃ a, has_batch_today s = false ∧ configured_allowance s = some a ∧ a ≠ 0
        ∧ s' = { s with
            batches := s.batches ++
              [{ id := s.next_batch_id
                 batch_type := BatchType.INVOLUNTARY_DISSOLUTION
                 status := BatchStatus.PROCESSING
                 size := ((eligible_businesses s).take a).length
                 start_date := s.today }]
            batch_processings := s.batch_processings ++
              ((eligible_businesses s).take a).map (new_batch_processing s.next_batch_id s.today)
            next_batch_id := s.next_batch_id + 1 } := by
  by_cases hg : has_batch_today s = true
  · rw [initiate_of_has_batch_today s hg] at hrun
    exact Or.inl ⟨hg, (Option.some_inj.mp hrun).symm⟩
  · have hg' : has_batch_today s = false := by
      cases hhb : has_batch_today s
      · rfl
      · exact absurd hhb hg
    cases hca : configured_allowance s with
    | none => simp [initiate_dissolution_process, hg', hca] at hrun
    | some a =>
      by_cases h0 : a = 0
      · subst h0
        rw [initiate_of_zero_allowance s hg' hca] at hrun
        exact Or.inr (Or.inl ⟨hg', rfl, (Option.some_inj.mp hrun).symm⟩)
      · rw [initiate_eq_some s a hg' hca h0] at hrun
        exact Or.inr (Or.inr ⟨a, hg', rfl, h0, (Option.some_inj.mp hrun).symm⟩)

/-- The batch list after a creating run, as an explicit append. -/
theorem initiate_batches_eq (s s' : State) (a : Nat)
    (hg : has_batch_today s = false)
    (ha : configured_allowance s = some a)
    (h0 : a ≠ 0)
    (hrun : initiate_dissolution_process s = some s') :
    s'.batches = s.batches ++
      [{ id := s.next_batch_id
         batch_type := BatchType.INVOLUNTARY_DISSOLUTION
         status := BatchStatus.PROCESSING
         size := ((eligible_businesses s).take a).length
         start_date := s.today }] := by
  rw [initiate_eq_some s a hg ha h0] at hrun
  obtain rfl := Option.some_inj.mp hrun
  rfl

/-- The batch-processing list after a creating run, as an explicit append. -/
theorem initiate_rows_eq (s s' : State) (a : Nat)
    (hg : has_batch_today s = false)
    (ha : configured_allowance s = some a)
    (h0 : a ≠ 0)
    (hrun : initiate_dissolution_process s = some s') :
    s'.batch_processings = s.batch_processings ++
      ((eligible_businesses s).take a).map (new_batch_processing s.next_batch_id s.today) := by
  rw [initiate_eq_some s a hg ha h0] at hrun
  obtain rfl := Option.some_inj.mp hrun
  rfl

/-! ## Claims -/

/-- C5: if the configured NUM_DISSOLUTIONS_ALLOWED value is "0",
initiate_dissolution_process creates zero batches, regardless of how many
businesses are eligible. -/
theorem initiate_zero_allowance_creates_no_batch (s s' : State)
    (hv : find_by_name s.configurations num_dissolutions_allowed_name = some "0")
    (hrun : initiate_dissolution_process s = some s') :
    s'.batches = s.batches := by
  have ha : configured_allowance s = some 0 := by
    unfold configured_allowance
    rw [hv]
    rfl
  rcases initiate_cases s s' hrun with ⟨_, rfl⟩ | ⟨_, _, rfl⟩ | ⟨a, _, ha', h0, rfl⟩
  · rfl
  · rfl
  · rw [ha] at ha'
    exact absurd (Option.some_inj.mp ha').symm h0

/-- C5 witness: a state with one eligible business and allowance "0". -/
theorem initiate_zero_allowance_creates_no_batch_witness :
    find_by_name exZero.configurations num_dissolutions_allowed_name = some "0"
    ∧ initiate_dissolution_process exZero = some exZero
    ∧ exZero.batches = exZero.batches :=
  ⟨by decide, by decide,
    initiate_zero_allowance_creates_no_batch exZero exZero (by decide) (by decide)⟩

/-- C1: calling initiate_dissolution_process twice on the same calendar day
creates exactly one Batch of the involuntary-dissolution type: the second call
returns without creating a new batch, so at most one batch of this type exists
per calendar day. -/
theorem initiate_idempotent_per_day (s s' : State)
    (hrun : initiate_dissolution_process s = some s') :
    initiate_dissolution_process s' = some s'
    ∧ (inv_batches_today s = 0 → inv_batches_today s' ≤ 1)
    ∧ (has_batch_today s = false → ∀ a, configured_allowance s = some a → a ≠ 0 →
        inv_batches_today s' = inv_batches_today s + 1) := by
  rcases initiate_cases s s' hrun with ⟨hg, rfl⟩ | ⟨hg, ha, rfl⟩ | ⟨a, hg, ha, h0, rfl⟩
  · refine ⟨initiate_of_has_batch_today _ hg, fun hc => le_of_eq_of_le hc (Nat.zero_le 1), ?_⟩
    intro hgf
    rw [hg] at hgf
    exact absurd hgf (by decide)
  · refine ⟨initiate_of_zero_allowance _ hg ha, fun hc => le_of_eq_of_le hc (Nat.zero_le 1), ?_⟩
    intro _ a' ha' h0'
    rw [ha] at ha'
    exact absurd (Option.some_inj.mp ha').symm h0'
  · have hcount : inv_batches_today
        { s with
            batches := s.batches ++
              [{ id := s.next_batch_id
                 batch_type := BatchType.INVOLUNTARY_DISSOLUTION
                 status := BatchStatus.PROCESSING
                 size := ((eligible_businesses s).take a).length
                 start_date := s.today }]
            batch_processings := s.batch_processings ++
              ((eligible_businesses s).take a).map (new_batch_processing s.next_batch_id s.today)
            next_batch_id := s.next_batch_id + 1 }
        = inv_batches_today s + 1 := by
      simp [inv_batches_today, List.filter_append]
    refine ⟨?_, ?_, ?_⟩
    · apply initiate_of_has_batch_today
      simp [has_batch_today, List.any_append]
    · intro hc
      rw [hcount, hc]
    · intro _ _ _ _
      exact hcount

/-- C1 witness: a fresh state with two eligible businesses. -/
theorem initiate_idempotent_per_day_witness :
    initiate_dissolution_process exState = some exInit
    ∧ (initiate_dissolution_process exInit = some exInit
        ∧ (inv_batches_today exState = 0 → inv_batches_today exInit ≤ 1)
        ∧ (has_batch_today exState = false →
            ∀ a, configured_allowance exState = some a → a ≠ 0 →
              inv_batches_today exInit = inv_batches_today exState + 1)) :=
  ⟨by decide, initiate_idempotent_per_day exState exInit (by decide)⟩

/-- C6: check_run_schedule evaluates the three configured per-stage cron
expressions against the current date and returns one boolean per stage; given
cron strings "0 0 * * 1-2", "0 0 * * 2", "0 0 * * 3" and a current date that
is a Tuesday (cron day-of-week 2), it returns (true, true, false). -/
theorem check_run_schedule_tuesday (cfg : List (String × String)) (d : CronDate)
    (h1 : find_by_name cfg stage_1_schedule_name = some "0 0 * * 1-2")
    (h2 : find_by_name cfg stage_2_schedule_name = some "0 0 * * 2")
    (h3 : find_by_name cfg stage_3_schedule_name = some "0 0 * * 3")
    (hd : d.day_of_week = 2) :
    check_run_schedule cfg d = some (true, true, false) := by
  obtain ⟨dom, dow⟩ := d
  have hdow : dow = 2 := hd
  subst hdow
  unfold check_run_schedule check_run_schedule_core find_by_name_traced
  rw [h1, h2, h3]
  rfl

/-- C6 witness: the test's configuration and 2024-06-04, a Tuesday. -/
theorem check_run_schedule_tuesday_witness :
    find_by_name exCfg stage_1_schedule_name = some "0 0 * * 1-2"
    ∧ find_by_name exCfg stage_2_schedule_name = some "0 0 * * 2"
    ∧ find_by_name exCfg stage_3_schedule_name = some "0 0 * * 3"
    ∧ (CronDate.mk 4 2).day_of_week = 2
    ∧ check_run_schedule exCfg (CronDate.mk 4 2) = some (true, true, false) :=
  ⟨by decide, by decide, by decide, by decide,
    check_run_schedule_tuesday exCfg (CronDate.mk 4 2)
      (by decide) (by decide) (by decide) (by decide)⟩

/-- C10: check_run_schedule retrieves exactly three configuration values by
name via find_by_name, consuming them in stage order (stage 1, then 2, then 3),
and returns a triple of booleans whose components are the stage-1, stage-2 and
stage-3 evaluations, in that order.  (In the embedding, the configuration
store and current date the Python function reads ambiently are explicit
arguments.) -/
theorem check_run_schedule_three_lookups_in_order (cfg : List (String × String))
    (d : CronDate) (b1 b2 b3 : Bool)
    (hrun : check_run_schedule cfg d = some (b1, b2, b3)) :
    (check_run_schedule_core cfg d).2
      = [stage_1_schedule_name, stage_2_schedule_name, stage_3_schedule_name]
    ∧ (∃ v1, find_by_name cfg stage_1_schedule_name = some v1
        ∧ cron_matches_date v1 d = some b1)
    ∧ (∃ v2, find_by_name cfg stage_2_schedule_name = some v2
        ∧ cron_matches_date v2 d = some b2)
    ∧ (∃ v3, find_by_name cfg stage_3_schedule_name = some v3
        ∧ cron_matches_date v3 d = some b3) := by
  unfold check_run_schedule check_run_schedule_core find_by_name_traced at hrun
  refine ⟨rfl, ?_⟩
  cases hf1 : find_by_name cfg stage_1_schedule_name with
  | none => simp [hf1] at hrun
  | some v1 =>
    cases hf2 : find_by_name cfg stage_2_schedule_name with
    | none => simp [hf1, hf2] at hrun
    | some v2 =>
      cases hf3 : find_by_name cfg stage_3_schedule_name with
      | none => simp [hf1, hf2, hf3] at hrun
      | some v3 =>
        simp only [hf1, hf2, hf3] at hrun
        cases hc1 : cron_matches_date v1 d with
        | none => simp [hc1] at hrun
        | some x1 =>
          cases hc2 : cron_matches_date v2 d with
          | none => simp [hc1, hc2] at hrun
          | some x2 =>
            cases hc3 : cron_matches_date v3 d with
            | none => simp [hc1, hc2, hc3] at hrun
            | some x3 =>
              simp only [hc1, hc2, hc3, Option.some_inj, Prod.mk.injEq] at hrun
              obtain ⟨rfl, rfl, rfl⟩ := hrun
              exact ⟨⟨v1, rfl, hc1⟩, ⟨v2, rfl, hc2⟩, ⟨v3, rfl, hc3⟩⟩

/-- C10 witness: the test's configuration on a Tuesday succeeds, so the
lookup contract applies. -/
theorem check_run_schedule_three_lookups_in_order_witness :
    check_run_schedule exCfg (CronDate.mk 4 2) = some (true, true, false)
    ∧ ((check_run_schedule_core exCfg (CronDate.mk 4 2)).2
        = [stage_1_schedule_name, stage_2_schedule_name, stage_3_schedule_name]
      ∧ (∃ v1, find_by_name exCfg stage_1_schedule_name = some v1
          ∧ cron_matches_date v1 (CronDate.mk 4 2) = some true)
      ∧ (∃ v2, find_by_name exCfg stage_2_schedule_name = some v2
          ∧ cron_matches_date v2 (CronDate.mk 4 2) = some true)
      ∧ (∃ v3, find_by_name exCfg stage_3_schedule_name = some v3
          ∧ cron_matches_date v3 (CronDate.mk 4 2) = some false)) :=
  ⟨by decide,
    check_run_schedule_three_lookups_in_order exCfg (CronDate.mk 4 2)
      true true false (by decide)⟩

/-- C2: for every BatchProcessing row, stage_2_process advances the row only
if all four conditions hold — owning Batch status PROCESSING, row status
PROCESSING, row step WARNING_LEVEL_1, created_date older than the dwell
threshold; if any single condition is violated, the row's last_modified field
is unchanged after the call. -/
theorem stage_2_frame (s : State) (i : Nat)
    (h : i < s.batch_processings.length)
    (h2 : i < (stage_2_process s).batch_processings.length)
    (hnot : ¬ (owning_batch_processing_status s (s.batch_processings.get ⟨i, h⟩) = true
        ∧ (s.batch_processings.get ⟨i, h⟩).status = BatchProcessingStatus.PROCESSING
        ∧ (s.batch_processings.get ⟨i, h⟩).step = BatchProcessingStep.WARNING_LEVEL_1
        ∧ (s.batch_processings.get ⟨i, h⟩).created_date + stage_2_dwell_days ≤ s.today)) :
    ((stage_2_process s).batch_processings.get ⟨i, h2⟩).last_modified
      = (s.batch_processings.get ⟨i, h⟩).last_modified := by
  rw [stage_2_process_get s i h h2]
  have hm : stage_2_matched s (s.batch_processings.get ⟨i, h⟩) = false := by
    rw [← Bool.not_eq_true]
    intro hmt
    exact hnot ((stage_2_matched_iff s _).mp hmt)
  simp only [List.get_eq_getElem] at hm ⊢
  simp [stage_2_row, hm]

/-- C2 witness: a row created today violates the dwell condition, so its
last_modified is unchanged. -/
theorem stage_2_frame_witness :
    (0 < exFresh.batch_processings.length
      ∧ 0 < (stage_2_process exFresh).batch_processings.length)
    ∧ ¬ (owning_batch_processing_status exFresh
            (exFresh.batch_processings.get ⟨0, by decide⟩) = true
        ∧ (exFresh.batch_processings.get ⟨0, by decide⟩).status
            = BatchProcessingStatus.PROCESSING
        ∧ (exFresh.batch_processings.get ⟨0, by decide⟩).step
            = BatchProcessingStep.WARNING_LEVEL_1
        ∧ (exFresh.batch_processings.get ⟨0, by decide⟩).created_date
            + stage_2_dwell_days ≤ exFresh.today)
    ∧ ((stage_2_process exFresh).batch_processings.get ⟨0, by decide⟩).last_modified
        = (exFresh.batch_processings.get ⟨0, by decide⟩).last_modified :=
  ⟨⟨by decide, by decide⟩, by decide,
    stage_2_frame exFresh 0 (by decide) (by decide) (by decide)⟩

/-- C3: for every BatchProcessing row matched by stage_2_process — if the
associated business has not filed since the row was created, the row moves to
step WARNING_LEVEL_2 with status remaining PROCESSING; if the business has
filed since the row's creation, the row moves to status WITHDRAWN with step
reset to WARNING_LEVEL_1. -/
theorem stage_2_matched_outcomes (s : State) (i : Nat)
    (h : i < s.batch_processings.length)
    (h2 : i < (stage_2_process s).batch_processings.length)
    (hm : stage_2_matched s (s.batch_processings.get ⟨i, h⟩) = true) :
    (business_has_filed_since s (s.batch_processings.get ⟨i, h⟩) = false →
        ((stage_2_process s).batch_processings.get ⟨i, h2⟩).step
            = BatchProcessingStep.WARNING_LEVEL_2
        ∧ ((stage_2_process s).batch_processings.get ⟨i, h2⟩).status
            = BatchProcessingStatus.PROCESSING)
    ∧ (business_has_filed_since s (s.batch_processings.get ⟨i, h⟩) = true →
        ((stage_2_process s).batch_processings.get ⟨i, h2⟩).status
            = BatchProcessingStatus.WITHDRAWN
        ∧ ((stage_2_process s).batch_processings.get ⟨i, h2⟩).step
            = BatchProcessingStep.WARNING_LEVEL_1) := by
  rw [stage_2_process_get s i h h2]
  have hst : (s.batch_processings.get ⟨i, h⟩).status = BatchProcessingStatus.PROCESSING :=
    ((stage_2_matched_iff s _).mp hm).2.1
  simp only [List.get_eq_getElem] at hm hst ⊢
  constructor
  · intro hf
    simp [stage_2_row, hm, stage_2_transition, hf, hst]
  · intro hf
    simp [stage_2_row, hm, stage_2_transition, hf]

/-- C3 witness: the matched row of `exStage`, whose business filed after the
row was created, is withdrawn with its step reset. -/
theorem stage_2_matched_outcomes_witness :
    (0 < exStage.batch_processings.length
      ∧ 0 < (stage_2_process exStage).batch_processings.length)
    ∧ stage_2_matched exStage (exStage.batch_processings.get ⟨0, by decide⟩) = true
    ∧ ((business_has_filed_since exStage (exStage.batch_processings.get ⟨0, by decide⟩) = false →
          ((stage_2_process exStage).batch_processings.get ⟨0, by decide⟩).step
              = BatchProcessingStep.WARNING_LEVEL_2
          ∧ ((stage_2_process exStage).batch_processings.get ⟨0, by decide⟩).status
              = BatchProcessingStatus.PROCESSING)
      ∧ (business_has_filed_since exStage (exStage.batch_processings.get ⟨0, by decide⟩) = true →
          ((stage_2_process exStage).batch_processings.get ⟨0, by decide⟩).status
              = BatchProcessingStatus.WITHDRAWN
          ∧ ((stage_2_process exStage).batch_processings.get ⟨0, by decide⟩).step
              = BatchProcessingStep.WARNING_LEVEL_1)) :=
  ⟨⟨by decide, by decide⟩, by decide,
    stage_2_matched_outcomes exStage 0 (by decide) (by decide) (by decide)⟩

/-- C7: for every BatchProcessing row and every operation of the job, the
row's step only moves forward along the fixed ordered sequence — except the
withdrawal transition, which resets the step to WARNING_LEVEL_1 while setting
status WITHDRAWN; initiate_dissolution_process leaves pre-existing rows
unchanged and creates new rows at WARNING_LEVEL_1. -/
theorem step_forward_invariant (s s' : State) (i : Nat)
    (h : i < s.batch_processings.length)
    (h2 : i < (stage_2_process s).batch_processings.length)
    (hrun : initiate_dissolution_process s = some s')
    (h3 : i < s'.batch_processings.length) :
    (step_order (s.batch_processings.get ⟨i, h⟩).step
        ≤ step_order ((stage_2_process s).batch_processings.get ⟨i, h2⟩).step
      ∨ (((stage_2_process s).batch_processings.get ⟨i, h2⟩).status
            = BatchProcessingStatus.WITHDRAWN
          ∧ ((stage_2_process s).batch_processings.get ⟨i, h2⟩).step
            = BatchProcessingStep.WARNING_LEVEL_1))
    ∧ s'.batch_processings.get ⟨i, h3⟩ = s.batch_processings.get ⟨i, h⟩
    ∧ ∀ bp ∈ s'.batch_processings.drop s.batch_processings.length,
        bp.step = BatchProcessingStep.WARNING_LEVEL_1 := by
  refine ⟨?_, ?_, ?_⟩
  · rw [stage_2_process_get s i h h2]
    by_cases hm : stage_2_matched s (s.batch_processings.get ⟨i, h⟩) = true
    · have hsp := ((stage_2_matched_iff s _).mp hm).2.2.1
      by_cases hf : business_has_filed_since s (s.batch_processings.get ⟨i, h⟩) = true
      · right
        simp only [List.get_eq_getElem] at hm hf ⊢
        simp [stage_2_row, hm, stage_2_transition, hf]
      · left
        have hf' : business_has_filed_since s (s.batch_processings.get ⟨i, h⟩) = false := by
          simpa using hf
        rw [hsp]
        simp only [List.get_eq_getElem] at hm hf' ⊢
        simp [stage_2_row, hm, stage_2_transition, hf', step_order]
    · have hm' : stage_2_matched s (s.batch_processings.get ⟨i, h⟩) = false := by
        simpa using hm
      simp only [List.get_eq_getElem] at hm' ⊢
      simp [stage_2_row, hm']
  · rcases initiate_cases s s' hrun with ⟨_, rfl⟩ | ⟨_, _, rfl⟩ | ⟨a, hg, ha, h0, rfl⟩
    · rfl
    · rfl
    · simp only [List.get_eq_getElem]
      exact List.getElem_append_left h
  · rcases initiate_cases s s' hrun with ⟨_, rfl⟩ | ⟨_, _, rfl⟩ | ⟨a, hg, ha, h0, rfl⟩
    · simp [List.drop_length]
    · simp [List.drop_length]
    · intro bp hbp
      rw [List.drop_left] at hbp
      rcases List.mem_map.mp hbp with ⟨b, -, rfl⟩
      rfl

/-- C7 witness: `exStage` has one in-flight row and admits a creating run. -/
theorem step_forward_invariant_witness :
    (0 < exStage.batch_processings.length
      ∧ 0 < (stage_2_process exStage).batch_processings.length
      ∧ initiate_dissolution_process exStage = some exStageInit
      ∧ 0 < exStageInit.batch_processings.length)
    ∧ ((step_order (exStage.batch_processings.get ⟨0, by decide⟩).step
          ≤ step_order ((stage_2_process exStage).batch_processings.get ⟨0, by decide⟩).step
        ∨ (((stage_2_process exStage).batch_processings.get ⟨0, by decide⟩).status
              = BatchProcessingStatus.WITHDRAWN
            ∧ ((stage_2_process exStage).batch_processings.get ⟨0, by decide⟩).step
              = BatchProcessingStep.WARNING_LEVEL_1))
      ∧ exStageInit.batch_processings.get ⟨0, by decide⟩
          = exStage.batch_processings.get ⟨0, by decide⟩
      ∧ ∀ bp ∈ exStageInit.batch_processings.drop exStage.batch_processings.length,
          bp.step = BatchProcessingStep.WARNING_LEVEL_1) :=
  ⟨⟨by decide, by decide, by decide, by decide⟩,
    step_forward_invariant exStage exStageInit 0 (by decide) (by decide) (by decide) (by decide)⟩

/-- C9: the stage-2 minimum dwell period is strictly positive and at most 60
days — a BatchProcessing row whose created_date is 60 days before the run
satisfies the dwell condition and is advanced (all other conditions holding),
while a row whose created_date equals the run time does not satisfy it and is
left with last_modified unchanged. -/
theorem stage_2_dwell_window (s : State) (i : Nat)
    (h : i < s.batch_processings.length)
    (h2 : i < (stage_2_process s).batch_processings.length)
    (hb : owning_batch_processing_status s (s.batch_processings.get ⟨i, h⟩) = true)
    (hst : (s.batch_processings.get ⟨i, h⟩).status = BatchProcessingStatus.PROCESSING)
    (hsp : (s.batch_processings.get ⟨i, h⟩).step = BatchProcessingStep.WARNING_LEVEL_1) :
    0 < stage_2_dwell_days ∧ stage_2_dwell_days ≤ 60
    ∧ ((s.batch_processings.get ⟨i, h⟩).created_date + 60 = s.today →
        stage_2_matched s (s.batch_processings.get ⟨i, h⟩) = true
        ∧ (stage_2_process s).batch_processings.get ⟨i, h2⟩
            = stage_2_transition s (s.batch_processings.get ⟨i, h⟩))
    ∧ ((s.batch_processings.get ⟨i, h⟩).created_date = s.today →
        ((stage_2_process s).batch_processings.get ⟨i, h2⟩).last_modified
          = (s.batch_processings.get ⟨i, h⟩).last_modified) := by
  refine ⟨by decide, by decide, ?_, ?_⟩
  · intro hc
    have hm : stage_2_matched s (s.batch_processings.get ⟨i, h⟩) = true := by
      rw [stage_2_matched_iff]
      refine ⟨hb, hst, hsp, ?_⟩
      simp only [stage_2_dwell_days]
      omega
    refine ⟨hm, ?_⟩
    rw [stage_2_process_get s i h h2]
    simp only [List.get_eq_getElem] at hm ⊢
    simp [stage_2_row, hm]
  · intro hc
    have hm : stage_2_matched s (s.batch_processings.get ⟨i, h⟩) = false := by
      rw [← Bool.not_eq_true, stage_2_matched_iff]
      rintro ⟨-, -, -, hd⟩
      simp only [stage_2_dwell_days] at hd
      omega
    rw [stage_2_process_get s i h h2]
    simp only [List.get_eq_getElem] at hm ⊢
    simp [stage_2_row, hm]

/-- C9 witness: the row of `exStage` was created exactly 60 days before the
run and meets the other three conditions. -/
theorem stage_2_dwell_window_witness :
    (0 < exStage.batch_processings.length
      ∧ 0 < (stage_2_process exStage).batch_processings.length
      ∧ owning_batch_processing_status exStage
          (exStage.batch_processings.get ⟨0, by decide⟩) = true
      ∧ (exStage.batch_processings.get ⟨0, by decide⟩).status
          = BatchProcessingStatus.PROCESSING
      ∧ (exStage.batch_processings.get ⟨0, by decide⟩).step
          = BatchProcessingStep.WARNING_LEVEL_1)
    ∧ (0 < stage_2_dwell_days ∧ stage_2_dwell_days ≤ 60
      ∧ ((exStage.batch_processings.get ⟨0, by decide⟩).created_date + 60 = exStage.today →
          stage_2_matched exStage (exStage.batch_processings.get ⟨0, by decide⟩) = true
          ∧ (stage_2_process exStage).batch_processings.get ⟨0, by decide⟩
              = stage_2_transition exStage (exStage.batch_processings.get ⟨0, by decide⟩))
      ∧ ((exStage.batch_processings.get ⟨0, by decide⟩).created_date = exStage.today →
          ((stage_2_process exStage).batch_processings.get ⟨0, by decide⟩).last_modified
            = (exStage.batch_processings.get ⟨0, by decide⟩).last_modified)) :=
  ⟨⟨by decide, by decide, by decide, by decide, by decide⟩,
    stage_2_dwell_window exStage 0 (by decide) (by decide) (by decide) (by decide) (by decide)⟩

/-- C4: when N businesses are eligible and the allowance is at least N,
initiate_dissolution_process creates exactly one Batch with status PROCESSING,
size = N, start_date = today, and exactly N BatchProcessing rows, each
referencing the batch, at step WARNING_LEVEL_1, status PROCESSING,
created_date = today, with non-empty metadata. -/
theorem initiate_creates_full_batch (s s' : State) (a N : Nat)
    (hg : has_batch_today s = false)
    (ha : configured_allowance s = some a)
    (h0 : a ≠ 0)
    (hN : (eligible_businesses s).length = N)
    (haN : N ≤ a)
    (hrun : initiate_dissolution_process s = some s') :
    s'.batches = s.batches ++
        [{ id := s.next_batch_id
           batch_type := BatchType.INVOLUNTARY_DISSOLUTION
           status := BatchStatus.PROCESSING
           size := N
           start_date := s.today }]
    ∧ s'.batch_processings.length = s.batch_processings.length + N
    ∧ ∀ bp ∈ s'.batch_processings.drop s.batch_processings.length,
        bp.batch_id = s.next_batch_id
        ∧ bp.step = BatchProcessingStep.WARNING_LEVEL_1
        ∧ bp.status = BatchProcessingStatus.PROCESSING
        ∧ bp.created_date = s.today
        ∧ bp.meta_data ≠ "" := by
  have hsel : ((eligible_businesses s).take a).length = N := by
    rw [List.length_take, hN]
    exact Nat.min_eq_right haN
  refine ⟨?_, ?_, ?_⟩
  · rw [initiate_batches_eq s s' a hg ha h0 hrun, hsel]
  · rw [initiate_rows_eq s s' a hg ha h0 hrun]
    simp only [List.length_append, List.length_map, hsel]
  · intro bp hbp
    rw [initiate_rows_eq s s' a hg ha h0 hrun, List.drop_left] at hbp
    rcases List.mem_map.mp hbp with ⟨b, -, rfl⟩
    exact ⟨rfl, rfl, rfl, rfl, (by decide : dissolution_meta_data ≠ "")⟩

/-- C4 witness: two eligible businesses under allowance 3. -/
theorem initiate_creates_full_batch_witness :
    (has_batch_today exState = false
      ∧ configured_allowance exState = some 3
      ∧ (3 : Nat) ≠ 0
      ∧ (eligible_businesses exState).length = 2
      ∧ (2 : Nat) ≤ 3
      ∧ initiate_dissolution_process exState = some exInit)
    ∧ (exInit.batches = exState.batches ++
          [{ id := exState.next_batch_id
             batch_type := BatchType.INVOLUNTARY_DISSOLUTION
             status := BatchStatus.PROCESSING
             size := 2
             start_date := exState.today }]
      ∧ exInit.batch_processings.length = exState.batch_processings.length + 2
      ∧ ∀ bp ∈ exInit.batch_processings.drop exState.batch_processings.length,
          bp.batch_id = exState.next_batch_id
          ∧ bp.step = BatchProcessingStep.WARNING_LEVEL_1
          ∧ bp.status = BatchProcessingStatus.PROCESSING
          ∧ bp.created_date = exState.today
          ∧ bp.meta_data ≠ "") :=
  ⟨⟨by decide, by decide, by decide, by decide, by decide, by decide⟩,
    initiate_creates_full_batch exState exInit 3 2
      (by decide) (by decide) (by decide) (by decide) (by decide) (by decide)⟩

/-- C8: given the same eligible businesses and allowance,
initiate_dissolution_process selects and orders batch members
deterministically — eligible identifiers are ordered by identifier,
truncation to the allowance preserves that order, and two runs on identical
inputs produce identical batch membership in identical order. -/
theorem initiate_deterministic_ordered_selection (s s' : State) (a : Nat)
    (hg : has_batch_today s = false)
    (ha : configured_allowance s = some a)
    (h0 : a ≠ 0)
    (hrun : initiate_dissolution_process s = some s') :
    new_row_identifiers s s'
        = ((eligible_businesses s).map (fun b => b.identifier)).take a
    ∧ List.Pairwise (fun x y : String => x.data ≤ y.data)
        ((eligible_businesses s).map (fun b => b.identifier))
    ∧ List.Pairwise (fun x y : String => x.data ≤ y.data) (new_row_identifiers s s')
    ∧ ∀ t : State, t = s →
        initiate_dissolution_process t = initiate_dissolution_process s := by
  have hpe : List.Pairwise business_le (eligible_businesses s) :=
    List.sorted_insertionSort business_le _
  have hpm : List.Pairwise (fun x y : String => x.data ≤ y.data)
      ((eligible_businesses s).map (fun b => b.identifier)) :=
    List.Pairwise.map _ (fun _ _ hxy => hxy) hpe
  have hids : new_row_identifiers s s'
      = ((eligible_businesses s).map (fun b => b.identifier)).take a := by
    unfold new_row_identifiers
    rw [initiate_rows_eq s s' a hg ha h0 hrun, List.drop_left, List.map_map,
      ← List.map_take]
    rfl
  refine ⟨hids, hpm, ?_, fun t ht => by rw [ht]⟩
  rw [hids]
  exact List.Pairwise.sublist (List.take_sublist a _) hpm

/-- C8 witness: the two businesses of `exState` under allowance 3. -/
theorem initiate_deterministic_ordered_selection_witness :
    (has_batch_today exState = false
      ∧ configured_allowance exState = some 3
      ∧ (3 : Nat) ≠ 0
      ∧ initiate_dissolution_process exState = some exInit)
    ∧ (new_row_identifiers exState exInit
          = ((eligible_businesses exState).map (fun b => b.identifier)).take 3
      ∧ List.Pairwise (fun x y : String => x.data ≤ y.data)
          ((eligible_businesses exState).map (fun b => b.identifier))
      ∧ List.Pairwise (fun x y : String => x.data ≤ y.data)
          (new_row_identifiers exState exInit)
      ∧ ∀ t : State, t = exState →
          initiate_dissolution_process t = initiate_dissolution_process exState) :=
  ⟨⟨by decide, by decide, by decide, by decide⟩,
    initiate_deterministic_ordered_selection exState exInit 3
      (by decide) (by decide) (by decide) (by decide)⟩

end InvDiss
